import Mathlib

/-!
Shallow embedding of the fetch/persist pipeline of the natan-equity-research
repository, covering `src/fetch_sp500_data.py` (namespace `FetchSP500`) and
`src/scripts/update_stock_data.py` (namespace `UpdateStock`).

Numeric payload values (Python floats) are modelled as rationals `ℚ`; an
optional dictionary entry is `Option ℚ` / `Option String`, with a missing key
and a key bound to Python `None` both modelled as `none`.  Python truthiness
on numbers (`if x:`, `x or y`) treats `0` and `None` as falsy; the embeddings
below reproduce that with explicit `= 0` tests.  Network calls are factored
out: the provider `info` dictionary and the computed year-to-date return are
inputs to the pure normalization functions.
-/

/-- Python `round(x, 2)` modelled on rationals.  Python rounds exact midpoints
half-to-even while Mathlib's `round` rounds them half-up; no theorem in this
file depends on a midpoint tie. -/
def round2 (x : ℚ) : ℚ := (round (x * 100) : ℤ) / 100

/-- Python `round(x, 3)` modelled on rationals (same midpoint caveat as `round2`). -/
def round3 (x : ℚ) : ℚ := (round (x * 1000) : ℤ) / 1000

/-- Python `round(x, 4)` modelled on rationals (same midpoint caveat as `round2`). -/
def round4 (x : ℚ) : ℚ := (round (x * 10000) : ℤ) / 10000

/-- Python `round(x, 2) if x else None` on an optional value: `None` and `0`
are falsy, so both produce `None`. -/
def round2If : Option ℚ → Option ℚ
  | none => none
  | some v => if v = 0 then none else some (round2 v)

/-- Python `round(x, 3) if x else None`. -/
def round3If : Option ℚ → Option ℚ
  | none => none
  | some v => if v = 0 then none else some (round3 v)

/-- Python `round(x, 4) if x else None`. -/
def round4If : Option ℚ → Option ℚ
  | none => none
  | some v => if v = 0 then none else some (round4 v)

/-- Python `if x: x = x * 100` on an optional fraction: `None` stays `None`,
`0` stays `0` (falsy, so the branch does not run), anything else is scaled. -/
def scale100 : Option ℚ → Option ℚ
  | none => none
  | some v => if v = 0 then some v else some (v * 100)

/-- Python `a or b` on optional numbers: the left value is kept when truthy
(present and nonzero), otherwise the right operand is returned as-is. -/
def pyOrQ (a b : Option ℚ) : Option ℚ :=
  match a with
  | some v => if v = 0 then b else some v
  | none => b

/-- One raw provider response (the yfinance `info` dictionary) restricted to
the keys the two scripts read.  `none` models an absent key (or a key bound
to Python `None`). -/
structure RawInfo where
  regularMarketPrice : Option ℚ := none
  currentPrice : Option ℚ := none
  previousClose : Option ℚ := none
  marketCap : Option ℚ := none
  trailingPE : Option ℚ := none
  forwardPE : Option ℚ := none
  priceToBook : Option ℚ := none
  priceToSalesTrailing12Months : Option ℚ := none
  returnOnEquity : Option ℚ := none
  returnOnAssets : Option ℚ := none
  revenueGrowth : Option ℚ := none
  earningsGrowth : Option ℚ := none
  debtToEquity : Option ℚ := none
  currentRatioVal : Option ℚ := none
  quickRatioVal : Option ℚ := none
  freeCashflow : Option ℚ := none
  operatingCashflow : Option ℚ := none
  grossMargins : Option ℚ := none
  ebitda : Option ℚ := none
  ebitdaMargins : Option ℚ := none
  totalRevenue : Option ℚ := none
  netIncomeToCommon : Option ℚ := none
  trailingEps : Option ℚ := none
  beta : Option ℚ := none
  dividendYield : Option ℚ := none
  sector : Option String := none
  industry : Option String := none
  shortName : Option String := none
  longName : Option String := none
  symbol : Option String := none
deriving DecidableEq

namespace FetchSP500

/-- Sector mapping table of `fetch_sp500_data.py` (lines 319-333). -/
def SECTOR_MAP : List (String × String) :=
  [("Technology", "Technology"),
   ("Information Technology", "Technology"),
   ("Communication Services", "Communications"),
   ("Consumer Cyclical", "Consumer, Cyclical"),
   ("Consumer Defensive", "Consumer, Non-cyclical"),
   ("Financial Services", "Financial"),
   ("Financial", "Financial"),
   ("Healthcare", "Healthcare"),
   ("Industrials", "Industrial"),
   ("Basic Materials", "Basic Materials"),
   ("Energy", "Energy"),
   ("Utilities", "Utilities"),
   ("Real Estate", "Financial")]

/-- Python `SECTOR_MAP.get(raw, raw)`: the mapped value when the key is in the
table, otherwise the raw value passed through unchanged. -/
def sectorMapGet (raw : String) : String :=
  (SECTOR_MAP.lookup raw).getD raw

/-- Canonical record shape produced by `fetch_stock_data` (lines 437-468).
Field names follow the JSON keys of the emitted dictionary; `Market Cap`,
`Price` and `Revenue` are always numeric there, every other metric is
optional. -/
structure EntityRecord where
  ticker : String
  name : String
  industrySector : String
  industryGroup : String
  region : String
  marketCap : ℚ
  price : ℚ
  pe : Option ℚ
  pb : Option ℚ
  ps : Option ℚ
  roe : Option ℚ
  roa : Option ℚ
  de : Option ℚ
  beta : Option ℚ
  alpha : Option ℚ
  ytdReturn : Option ℚ
  revenue : ℚ
  revenueGrowth : Option ℚ
  netIncome : Option ℚ
  epsGrowth : Option ℚ
  netIncomeGrowth : Option ℚ
  fcf : Option ℚ
  ebitda : Option ℚ
  fcfConversion : Option ℚ
  grossMargin : Option ℚ
  ebitdaMargin : Option ℚ
  curRatioVal : Option ℚ
  quickRatioVal : Option ℚ
  dividendYield : Option ℚ
  weight : Option ℚ
deriving DecidableEq

/-- Python `ticker.replace('.', '-')` (line 438). -/
def normalizeTicker (t : String) : String :=
  String.replace t (".") ("-")

/-- Resolved price (line 347): `info.get('regularMarketPrice') or
info.get('currentPrice', 0)`. -/
def resolved_price (i : RawInfo) : ℚ :=
  match i.regularMarketPrice with
  | some p => if p = 0 then i.currentPrice.getD 0 else p
  | none => i.currentPrice.getD 0

/-- Trailing P/E with forward fallback (lines 355-357): an out-of-band
trailing value (negative or above 1000) is replaced by the forward P/E. -/
def pe_value (i : RawInfo) : Option ℚ :=
  match i.trailingPE with
  | none => none
  | some v => if v ≠ 0 ∧ (v < 0 ∨ v > 1000) then i.forwardPE else some v

/-- Price-to-book with invalid-value discard (lines 359-361). -/
def pb_value (i : RawInfo) : Option ℚ :=
  match i.priceToBook with
  | none => none
  | some v => if v ≠ 0 ∧ v > 1000 then none else some v

/-- EBITDA margin (lines 397-401): `(ebitda / revenue) * 100` when both are
truthy and revenue is positive, else absent. -/
def ebitda_margin_value (i : RawInfo) : Option ℚ :=
  match i.ebitda with
  | none => none
  | some e =>
    let revenue := i.totalRevenue.getD 0
    if e ≠ 0 ∧ revenue ≠ 0 ∧ 0 < revenue then some (e / revenue * 100) else none

/-- FCF conversion (line 461): `round(fcf / net_income, 2)` when FCF is truthy
and net income is truthy and positive, else absent. -/
def fcf_conversion_value (i : RawInfo) : Option ℚ :=
  match i.freeCashflow, i.netIncomeToCommon with
  | some f, some n => if f ≠ 0 ∧ n ≠ 0 ∧ 0 < n then some (round2 (f / n)) else none
  | _, _ => none

/-- Display name (line 439): `info.get('shortName') or info.get('longName', ticker)`. -/
def name_value (i : RawInfo) (ticker : String) : String :=
  match i.shortName with
  | some s => if s = "" then i.longName.getD ticker else s
  | none => i.longName.getD ticker

/-- Record built at lines 437-468 once the core guards passed.  The
year-to-date return `y` is the value computed from price history at lines
410-425 (a network read, passed here as an input). -/
def build_record (t reg : String) (i : RawInfo) (y : Option ℚ) : EntityRecord :=
  { ticker := normalizeTicker t
    name := name_value i t
    industrySector := sectorMapGet (i.sector.getD ("Unknown"))
    industryGroup := i.industry.getD ("")
    region := reg
    marketCap := i.marketCap.getD 0
    price := resolved_price i
    pe := round2If (pe_value i)
    pb := round2If (pb_value i)
    ps := round2If i.priceToSalesTrailing12Months
    roe := round2If (scale100 i.returnOnEquity)
    roa := round2If (scale100 i.returnOnAssets)
    de := round2If i.debtToEquity
    beta := round4If i.beta
    alpha := none
    ytdReturn := round2If y
    revenue := i.totalRevenue.getD 0
    revenueGrowth := round2If (scale100 i.revenueGrowth)
    netIncome := i.netIncomeToCommon
    epsGrowth := round2If (scale100 i.earningsGrowth)
    netIncomeGrowth := round2If (scale100 i.earningsGrowth)
    fcf := i.freeCashflow
    ebitda := i.ebitda
    fcfConversion := fcf_conversion_value i
    grossMargin := round2If (scale100 i.grossMargins)
    ebitdaMargin := round2If (ebitda_margin_value i)
    curRatioVal := round2If i.currentRatioVal
    quickRatioVal := round2If i.quickRatioVal
    dividendYield := round2If (scale100 i.dividendYield)
    weight := none }

/-- Normalization path of `fetch_stock_data` (lines 338-468), with the network
call factored out: `info` is the provider response (`none` models an empty or
missing `info` dictionary) and `y` the computed year-to-date return.  Returns
`none` when the `regularMarketPrice` key is absent (line 342) or when the
resolved price or market cap is falsy (line 350), mirroring the two
early-return guards. -/
def fetch_stock_data (t reg : String) (info : Option RawInfo) (y : Option ℚ) :
    Option EntityRecord :=
  match info with
  | none => none
  | some i =>
    if i.regularMarketPrice.isNone then none
    else if resolved_price i = 0 ∨ i.marketCap.getD 0 = 0 then none
    else some (build_record t reg i y)

/-- Duplicate removal of `save_progress` (lines 533-538): keep the first
record seen for each ticker, preserving order. -/
def dedupAux (seen : List String) : List EntityRecord → List EntityRecord
  | [] => []
  | d :: rest =>
    if d.ticker ∈ seen then dedupAux seen rest
    else d :: dedupAux (d.ticker :: seen) rest

/-- The dataset as persisted by `save_progress` (lines 530-543) and by the
final save in `main` (lines 688-697): first-occurrence dedup by ticker, then a
stable sort by market cap descending (Python `list.sort(key=..., reverse=True)`
is stable; the `x.get('Market Cap', 0) or 0` key equals `marketCap` since the
field is always present and numeric in `EntityRecord`). -/
def save_progress (data : List EntityRecord) : List EntityRecord :=
  (dedupAux [] data).mergeSort (fun a b => decide (b.marketCap ≤ a.marketCap))

/-- Checkpoint load of `main` (lines 554-564): on `FileNotFoundError` start
from an empty dataset (the run then proceeds by fetching); when the file
parses, keep only the records whose `Region` is `US` or `Indonesia` (line
560), discarding every other region so it is re-fetched. -/
def load_checkpoint (file : Option (List EntityRecord)) : List EntityRecord :=
  match file with
  | none => []
  | some existing =>
    existing.filter (fun d => d.region == "US" || d.region == "Indonesia")

/-- Retry configuration of `fetch_sp500_data.py` (line 17). -/
def MAX_RETRIES : ℕ := 3

/-- Base delay in seconds (line 18). -/
def BASE_DELAY : ℚ := 2

/-- Maximum backoff in seconds (line 19). -/
def MAX_BACKOFF : ℚ := 120

/-- Backoff delay of line 474:
`min(BASE_DELAY * (2 ** retry_count) + random.uniform(0, 2), MAX_BACKOFF)`,
with the jitter draw passed in as a parameter. -/
def backoff_delay (retry_count : ℕ) (jitter : ℚ) : ℚ :=
  min (BASE_DELAY * 2 ^ retry_count + jitter) MAX_BACKOFF

/-- Decision of the retry policy: wait and retry, or give up (return `None`). -/
inductive RetryDecision where
  | retryAfter (delay : ℚ)
  | giveUp
deriving DecidableEq

/-- Retry decision taken in the except-block of `fetch_stock_data` (lines
470-479): retry with the backoff delay only when the error string mentions 429
and `retry_count < MAX_RETRIES`; in every other case give up. -/
def retry_policy (err_is_429 : Bool) (retry_count : ℕ) (jitter : ℚ) : RetryDecision :=
  if err_is_429 ∧ retry_count < MAX_RETRIES then
    RetryDecision.retryAfter (backoff_delay retry_count jitter)
  else RetryDecision.giveUp

/-- Number of upstream attempts performed by the retry recursion of
`fetch_stock_data` starting at a given `retry_count`: `f k` says whether the
attempt at `retry_count = k` raises a rate-limit (429) error.  Each retryable
error below `MAX_RETRIES` recurses with `retry_count + 1` (line 477). -/
def fetch_attempts (f : ℕ → Bool) (retry_count : ℕ) : ℕ :=
  if h : f retry_count ∧ retry_count < MAX_RETRIES then
    fetch_attempts f (retry_count + 1) + 1
  else 1
termination_by MAX_RETRIES - retry_count
decreasing_by omega

/-- Per-item update of `consecutive_errors` in `fetch_batch_data` (lines
497-511): a successful fetch resets it to zero, a falsy result or an
exception increments it. -/
def item_step (consecutive_errors : ℕ) (succeeded : Bool) : ℕ :=
  if succeeded then 0 else consecutive_errors + 1

/-- Streak counter after a batch of item outcomes (`true` = success). -/
def batch_items (c : ℕ) (outcomes : List Bool) : ℕ :=
  outcomes.foldl item_step c

/-- Distress check after each batch (lines 514-518): when the streak exceeds
5, sleep `delay * 2 + random.uniform(0, 10)` once (the jitter draw is the
parameter `jit`) and reset the counter; otherwise leave the counter alone and
pause nothing. -/
def distress_check (delay jit : ℚ) (c : ℕ) : ℕ × Option ℚ :=
  if 5 < c then (0, some (delay * 2 + jit)) else (c, none)

/-- One batch iteration of `fetch_batch_data`: run the items, then the
distress check; returns the new streak counter and the extended pause, if
any, that was inserted. -/
def batch_step (delay jit : ℚ) (c : ℕ) (outcomes : List Bool) : ℕ × Option ℚ :=
  distress_check delay jit (batch_items c outcomes)

/-- File-system actions relevant to checkpoint persistence: a whole-file
write (Python `open(path, 'w')` + `json.dump`) and an atomic rename. -/
inductive FsOp where
  | writeFile (path content : String)
  | rename (src dst : String)
deriving DecidableEq

/-- File-system actions performed by `save_progress` (lines 541-542) and by
the final save in `main` (lines 714-716): a single direct whole-file write to
the destination path, with no temporary file and no rename. -/
def save_file_ops (path content : String) : List FsOp :=
  [FsOp.writeFile path content]

/-- Whether an action sequence follows the write-to-temp-then-rename
discipline for the given final path: some rename lands on the final path and
no write targets the final path directly. -/
def usesTempThenRename (final : String) (ops : List FsOp) : Bool :=
  (ops.any fun op =>
    match op with
    | FsOp.rename _ dst => dst == final
    | _ => false)
  && (ops.all fun op =>
    match op with
    | FsOp.writeFile p _ => p != final
    | _ => true)

/-- Association-list file system: bind `p` to content `c`. -/
def setFile (fs : List (String × String)) (p c : String) : List (String × String) :=
  (p, c) :: fs.filter (fun e => e.1 != p)

/-- Effect of one completed file-system action. -/
def applyOp (fs : List (String × String)) : FsOp → List (String × String)
  | FsOp.writeFile p c => setFile fs p c
  | FsOp.rename s d =>
    match fs.lookup s with
    | some c => setFile (fs.filter (fun e => e.1 != s)) d c
    | none => fs

/-- States observable if the process crashes in the middle of one action: a
whole-file write can leave any prefix of the new content at the path (the
file was already truncated), while a rename is atomic. -/
def midStates (fs : List (String × String)) : FsOp → List (List (String × String))
  | FsOp.writeFile p c =>
    (List.range (c.length + 1)).map (fun n => setFile fs p (c.take n))
  | FsOp.rename _ _ => [fs]

/-- All file-system states reachable when the process may crash before,
during, or after any action of the sequence. -/
def crashStates (fs : List (String × String)) : List FsOp → List (List (String × String))
  | [] => [fs]
  | op :: rest => [fs] ++ midStates fs op ++ crashStates (applyOp fs op) rest

end FetchSP500

namespace UpdateStock

/-- Sector mapping table of `scripts/update_stock_data.py` (lines 52-64):
each canonical sector is paired with the upstream names mapping to it. -/
def SECTOR_MAP : List (String × List String) :=
  [("Technology", ["Technology", "Information Technology"]),
   ("Financial", ["Financial Services", "Financials"]),
   ("Healthcare", ["Healthcare"]),
   ("Consumer, Cyclical", ["Consumer Cyclical", "Consumer Discretionary"]),
   ("Consumer, Non-cyclical", ["Consumer Defensive", "Consumer Staples"]),
   ("Industrial", ["Industrials"]),
   ("Energy", ["Energy"]),
   ("Basic Materials", ["Basic Materials", "Materials"]),
   ("Communications", ["Communication Services"]),
   ("Utilities", ["Utilities"]),
   ("Real Estate", ["Real Estate"])]

/-- Sector mapping loop of lines 126-130: the first canonical sector whose
upstream-name list contains the raw sector, else the raw sector unchanged. -/
def mapSector (sector : String) : String :=
  ((SECTOR_MAP.find? (fun e => e.2.contains sector)).map Prod.fst).getD sector

/-- Record shape emitted by `get_stock_data` (lines 134-157).  Unlike the
`fetch_sp500_data.py` record, `Price` is optional (it is `round(price, 2) if
price else None`) and `Revenue` is the raw optional `totalRevenue`. -/
structure StockRecord where
  ticker : String
  name : String
  industrySector : String
  industryGroup : String
  region : String
  marketCap : ℚ
  price : Option ℚ
  pe : Option ℚ
  pb : Option ℚ
  ps : Option ℚ
  roe : Option ℚ
  de : Option ℚ
  beta : Option ℚ
  ytdReturn : Option ℚ
  revenue : Option ℚ
  revenueGrowth : Option ℚ
  netIncome : Option ℚ
  epsGrowth : Option ℚ
  netIncomeGrowth : Option ℚ
  fcf : Option ℚ
  ebitda : Option ℚ
  ebitdaMargin : Option ℚ
  grossMargin : Option ℚ
  curRatioVal : Option ℚ
  quickRatioVal : Option ℚ
deriving DecidableEq

/-- Resolved optional price (line 78): `regularMarketPrice or currentPrice or
previousClose` under Python truthiness. -/
def price_value (i : RawInfo) : Option ℚ :=
  pyOrQ (pyOrQ i.regularMarketPrice i.currentPrice) i.previousClose

/-- Display name (line 136): `info.get('longName') or info.get('shortName', ticker)`. -/
def name_value (i : RawInfo) (ticker : String) : String :=
  match i.longName with
  | some s => if s = "" then i.shortName.getD ticker else s
  | none => i.shortName.getD ticker

/-- Record built at lines 134-157 of `scripts/update_stock_data.py`; the
year-to-date return `y` is the value computed from `stock.history(period="ytd")`
at lines 111-119 (a network read, passed here as an input). -/
def build_record (t reg : String) (i : RawInfo) (y : Option ℚ) : StockRecord :=
  { ticker := String.replace t (".JK") ("")
    name := name_value i t
    industrySector := mapSector (i.sector.getD ("Unknown"))
    industryGroup := i.industry.getD ("Unknown")
    region := reg
    marketCap := i.marketCap.getD 0
    price := round2If (price_value i)
    pe := round2If (pyOrQ i.trailingPE i.forwardPE)
    pb := round2If i.priceToBook
    ps := round2If i.priceToSalesTrailing12Months
    roe := round2If (scale100 i.returnOnEquity)
    de := round2If i.debtToEquity
    beta := round3If i.beta
    ytdReturn := round2If y
    revenue := i.totalRevenue
    revenueGrowth := round2If (scale100 i.revenueGrowth)
    netIncome := i.netIncomeToCommon
    epsGrowth := round2If (scale100 i.earningsGrowth)
    netIncomeGrowth := round2If (scale100 i.earningsGrowth)
    fcf := i.freeCashflow
    ebitda := i.ebitda
    ebitdaMargin := round2If (scale100 i.ebitdaMargins)
    grossMargin := round2If (scale100 i.grossMargins)
    curRatioVal := round2If i.currentRatioVal
    quickRatioVal := round2If i.quickRatioVal }

/-- Normalization path of `get_stock_data` (lines 69-161), network call
factored out.  Returns `none` when the `info` dictionary is empty or lacks
the `symbol` key (line 75); there is no price/market-cap rejection in this
variant. -/
def get_stock_data (t reg : String) (info : Option RawInfo) (y : Option ℚ) :
    Option StockRecord :=
  match info with
  | none => none
  | some i =>
    if i.symbol.isNone then none
    else some (build_record t reg i y)

end UpdateStock

/-- Modelled from the spec: the fixed enumerated set of canonical sector
names — the codomain of the static sector table together with the
default value used when the upstream sector key is missing. -/
def SPEC_CANONICAL_SECTORS : List String :=
  (FetchSP500.SECTOR_MAP.map Prod.snd).dedup ++ ["Unknown"]

/-- Concrete record constructor for test inputs: every optional metric
absent. -/
def mkRec (t reg : String) (mc p : ℚ) : FetchSP500.EntityRecord :=
  { ticker := t, name := t, industrySector := "Technology", industryGroup := ""
    region := reg, marketCap := mc, price := p
    pe := none, pb := none, ps := none, roe := none, roa := none, de := none
    beta := none, alpha := none, ytdReturn := none, revenue := 0
    revenueGrowth := none, netIncome := none, epsGrowth := none
    netIncomeGrowth := none, fcf := none, ebitda := none, fcfConversion := none
    grossMargin := none, ebitdaMargin := none, curRatioVal := none
    quickRatioVal := none, dividendYield := none, weight := none }

/-- A previously checkpointed record for ticker X. -/
def oldX : FetchSP500.EntityRecord := mkRec ("X") ("US") 100 1

/-- A freshly fetched record for the same ticker X with a different price. -/
def newX : FetchSP500.EntityRecord := mkRec ("X") ("US") 100 2

/-- Equal market cap, larger ticker, listed first. -/
def recB : FetchSP500.EntityRecord := mkRec ("B") ("US") 100 1

/-- Equal market cap, smaller ticker, listed second. -/
def recA : FetchSP500.EntityRecord := mkRec ("A") ("US") 100 1

/-- A cached record from a region other than US/Indonesia. -/
def ukRec : FetchSP500.EntityRecord := mkRec ("U1") ("UK") 50 1

/-- A cached US record. -/
def usRec : FetchSP500.EntityRecord := mkRec ("U2") ("US") 50 1

namespace FetchSP500

theorem dedupAux_ticker_not_mem (l : List EntityRecord) :
    ∀ seen r, r ∈ dedupAux seen l → r.ticker ∉ seen := by
  induction l with
  | nil => intro seen r h; simp [dedupAux] at h
  | cons d rest ih =>
    intro seen r h
    by_cases hd : d.ticker ∈ seen
    · rw [dedupAux, if_pos hd] at h
      exact ih seen r h
    · rw [dedupAux, if_neg hd] at h
      rcases List.mem_cons.mp h with h | h
      · subst h; exact hd
      · intro hs
        exact ih (d.ticker :: seen) r h (List.mem_cons_of_mem _ hs)

theorem dedupAux_find (l : List EntityRecord) :
    ∀ seen r, r ∈ dedupAux seen l →
      l.find? (fun d => d.ticker == r.ticker) = some r := by
  induction l with
  | nil => intro seen r h; simp [dedupAux] at h
  | cons d rest ih =>
    intro seen r h
    by_cases hd : d.ticker ∈ seen
    · rw [dedupAux, if_pos hd] at h
      have hne : ¬ (d.ticker == r.ticker) = true := by
        have hnot := dedupAux_ticker_not_mem rest seen r h
        simp only [beq_iff_eq]
        intro heq
        exact hnot (heq ▸ hd)
      rw [List.find?_cons_of_neg (p := fun x => x.ticker == r.ticker) rest hne]
      exact ih seen r h
    · rw [dedupAux, if_neg hd] at h
      rcases List.mem_cons.mp h with h | h
      · subst h
        rw [List.find?_cons_of_pos (p := fun x => x.ticker == r.ticker) rest (by simp)]
      · have hnot := dedupAux_ticker_not_mem rest (d.ticker :: seen) r h
        have hne : ¬ (d.ticker == r.ticker) = true := by
          simp only [beq_iff_eq]
          intro heq
          exact hnot (heq ▸ List.mem_cons_self _ _)
        rw [List.find?_cons_of_neg (p := fun x => x.ticker == r.ticker) rest hne]
        exact ih (d.ticker :: seen) r h

theorem dedupAux_tickers_nodup (l : List EntityRecord) :
    ∀ seen, ((dedupAux seen l).map (fun r => r.ticker)).Nodup := by
  induction l with
  | nil => intro seen; simp [dedupAux]
  | cons d rest ih =>
    intro seen
    by_cases hd : d.ticker ∈ seen
    · rw [dedupAux, if_pos hd]; exact ih seen
    · rw [dedupAux, if_neg hd]
      simp only [List.map_cons, List.nodup_cons]
      refine ⟨?_, ih (d.ticker :: seen)⟩
      intro hmem
      rcases List.mem_map.mp hmem with ⟨r, hr, hticker⟩
      exact dedupAux_ticker_not_mem rest (d.ticker :: seen) r hr
        (hticker ▸ List.mem_cons_self _ _)

theorem dedupAux_covers (l : List EntityRecord) :
    ∀ seen r, r ∈ l →
      r.ticker ∈ seen ∨ ∃ r2 ∈ dedupAux seen l, r2.ticker = r.ticker := by
  induction l with
  | nil => intro seen r h; simp at h
  | cons d rest ih =>
    intro seen r h
    rcases List.mem_cons.mp h with h | h
    · subst h
      by_cases hd : r.ticker ∈ seen
      · exact Or.inl hd
      · refine Or.inr ⟨r, ?_, rfl⟩
        rw [dedupAux, if_neg hd]
        exact List.mem_cons_self _ _
    · by_cases hd : d.ticker ∈ seen
      · rcases ih seen r h with hs | ⟨r2, hr2, ht⟩
        · exact Or.inl hs
        · refine Or.inr ⟨r2, ?_, ht⟩
          rw [dedupAux, if_pos hd]
          exact hr2
      · rcases ih (d.ticker :: seen) r h with hs | ⟨r2, hr2, ht⟩
        · rcases List.mem_cons.mp hs with hs | hs
          · refine Or.inr ⟨d, ?_, hs.symm⟩
            rw [dedupAux, if_neg hd]
            exact List.mem_cons_self _ _
          · exact Or.inl hs
        · refine Or.inr ⟨r2, ?_, ht⟩
          rw [dedupAux, if_neg hd]
          exact List.mem_cons_of_mem _ hr2

end FetchSP500

/-- Helper: `save_progress` is the identity sort when the deduplicated list is
already non-increasing in market cap. -/
theorem save_progress_eq_of_sorted (data l : List FetchSP500.EntityRecord)
    (h1 : FetchSP500.dedupAux [] data = l)
    (h2 : l.Pairwise (fun a b => b.marketCap ≤ a.marketCap)) :
    FetchSP500.save_progress data = l := by
  unfold FetchSP500.save_progress
  rw [h1]
  exact List.mergeSort_of_sorted (h2.imp (fun h => decide_eq_true h))

/-- Helper: merging the old and new X-records keeps only the old one. -/
theorem save_progress_oldpair :
    FetchSP500.save_progress [oldX, newX] = [oldX] :=
  save_progress_eq_of_sorted _ _ (by decide) (by decide)

/-- Helper: two equal-market-cap records stay in input order. -/
theorem save_progress_bapair :
    FetchSP500.save_progress [recB, recA] = [recB, recA] :=
  save_progress_eq_of_sorted _ _ (by decide) (by decide)

/-- C1 (amended): `save_progress` merges by a keyed union on ticker in which
every ticker appears exactly once and, when a ticker occurs several times in
the concatenated existing-then-new data, the FIRST occurrence (the existing
record) wins in full; every ticker of the input survives into the result. -/
theorem save_progress_keyed_union (data : List FetchSP500.EntityRecord) :
    ((FetchSP500.save_progress data).map (fun r => r.ticker)).Nodup
    ∧ (∀ r ∈ FetchSP500.save_progress data,
        data.find? (fun d => d.ticker == r.ticker) = some r)
    ∧ (∀ r ∈ data, ∃ r2 ∈ FetchSP500.save_progress data, r2.ticker = r.ticker) := by
  have hperm :
      List.Perm (FetchSP500.save_progress data) (FetchSP500.dedupAux [] data) :=
    List.mergeSort_perm _ _
  refine ⟨?_, ?_, ?_⟩
  · exact ((hperm.map _).nodup_iff).mpr (FetchSP500.dedupAux_tickers_nodup data [])
  · intro r hr
    exact FetchSP500.dedupAux_find data [] r (hperm.mem_iff.mp hr)
  · intro r hr
    rcases FetchSP500.dedupAux_covers data [] r hr with hs | ⟨r2, hr2, ht⟩
    · simp at hs
    · exact ⟨r2, hperm.mem_iff.mpr hr2, ht⟩

/-- Witness for C1's amended theorem at a concrete two-record dataset. -/
theorem save_progress_keyed_union_witness :
    [oldX, newX].find? (fun d => d.ticker == oldX.ticker) = some oldX
    ∧ ∃ r2 ∈ FetchSP500.save_progress [oldX, newX], r2.ticker = newX.ticker :=
  ⟨(save_progress_keyed_union [oldX, newX]).2.1 oldX
      (by rw [save_progress_oldpair]; exact List.mem_cons_self _ _),
   (save_progress_keyed_union [oldX, newX]).2.2 newX (by simp)⟩

/-- C1 counterexample: when a ticker is present both in the existing
checkpoint (first) and in the new records (second), the merged dataset keeps
the OLD record, not the new one — first occurrence wins, refuting
"the resulting record equals the new record in full". -/
theorem save_progress_old_record_wins :
    FetchSP500.save_progress [oldX, newX] = [oldX] ∧ oldX ≠ newX :=
  ⟨save_progress_oldpair, by decide⟩

/-- C2 (amended): after any save the persisted sequence is non-increasing in
market capitalization; no identifier tie-break is applied for equal market
caps (Python's stable sort keeps such records in their pre-sort order). -/
theorem save_progress_sorted (data : List FetchSP500.EntityRecord) :
    (FetchSP500.save_progress data).Pairwise
      (fun a b => b.marketCap ≤ a.marketCap) := by
  unfold FetchSP500.save_progress
  refine List.Pairwise.imp ?_ (List.sorted_mergeSort ?_ ?_ (FetchSP500.dedupAux [] data))
  · intro a b h
    exact of_decide_eq_true h
  · intro a b c hab hbc
    simp only [decide_eq_true_eq] at *
    exact le_trans hbc hab
  · intro a b
    rcases le_total b.marketCap a.marketCap with h | h <;> simp [h]

/-- C2 counterexample: two records with equal market capitalization stay in
input order, so the identifier-ascending tie-break fails — the smaller
ticker A ends up after the larger ticker B. -/
theorem save_progress_no_ticker_tiebreak :
    FetchSP500.save_progress [recB, recA] = [recB, recA]
    ∧ recB.marketCap = recA.marketCap
    ∧ recA.ticker < recB.ticker :=
  ⟨save_progress_bapair, by decide,
   by rw [String.lt_iff_toList_lt]; decide⟩

/-- C3 counterexample: the save performs no write-to-temp-then-rename — it
writes the destination directly — and crashing right after the truncating
open leaves an empty file at the destination as the only copy (the prior
checkpoint content is gone, the new content was never written). -/
theorem save_no_temp_rename_counterexample :
    FetchSP500.usesTempThenRename ("out.json")
        (FetchSP500.save_file_ops ("out.json") ("[2]")) = false
    ∧ FetchSP500.setFile [(("out.json"), ("[1]"))] ("out.json") ("")
        ∈ FetchSP500.crashStates [(("out.json"), ("[1]"))]
            (FetchSP500.save_file_ops ("out.json") ("[2]"))
    ∧ List.lookup ("out.json")
        (FetchSP500.setFile [(("out.json"), ("[1]"))] ("out.json") ("")) = some ("") := by
  refine ⟨rfl, ?_, rfl⟩
  decide

/-- C3 (amended): every save writes the dataset directly to the destination
path, with no temporary file and no rename; consequently a crash during the
write can leave a partially written file (here: the empty truncation prefix)
as the only copy of the checkpoint — no file then holds the full dataset. -/
theorem save_direct_write_not_crash_atomic (path old c : String) (h : c ≠ ("")) :
    FetchSP500.usesTempThenRename path (FetchSP500.save_file_ops path c) = false
    ∧ ∃ st ∈ FetchSP500.crashStates [(path, old)] (FetchSP500.save_file_ops path c),
        List.lookup path st = some ("")
        ∧ ∀ q s, List.lookup q st = some s → s ≠ c := by
  have hst : FetchSP500.setFile [(path, old)] path ("") = [(path, (""))] := by
    simp [FetchSP500.setFile]
  refine ⟨rfl, FetchSP500.setFile [(path, old)] path (""), ?_, ?_, ?_⟩
  · simp only [FetchSP500.save_file_ops, FetchSP500.crashStates, FetchSP500.midStates]
    refine List.mem_append.mpr (Or.inl (List.mem_append.mpr (Or.inr ?_)))
    refine List.mem_map.mpr ⟨0, ?_, ?_⟩
    · simp
    · rw [String.take_eq]
      rfl
  · rw [hst]
    simp [List.lookup]
  · intro q s hq
    rw [hst] at hq
    simp only [List.lookup] at hq
    cases hb : (q == path) with
    | false =>
      rw [hb] at hq
      exact absurd hq (by simp)
    | true =>
      rw [hb] at hq
      simp only [Option.some.injEq] at hq
      subst hq
      exact fun hc => h hc.symm

/-- Witness for C3's amended theorem at concrete path and contents. -/
theorem save_direct_write_not_crash_atomic_witness :
    FetchSP500.usesTempThenRename ("o.json")
        (FetchSP500.save_file_ops ("o.json") ("[2]")) = false
    ∧ ∃ st ∈ FetchSP500.crashStates [(("o.json"), ("[1]"))]
          (FetchSP500.save_file_ops ("o.json") ("[2]")),
        List.lookup ("o.json") st = some ("")
        ∧ ∀ q s, List.lookup q st = some s → s ≠ ("[2]") :=
  save_direct_write_not_crash_atomic ("o.json") ("[1]") ("[2]") (by decide)

/-- C4: the retry delay for a retryable (429) error below the attempt cap is
`min(BASE_DELAY * 2 ^ attempt + jitter, MAX_BACKOFF)` and, with the jitter
term ignored, is non-decreasing in the attempt number. -/
theorem backoff_formula_and_monotone (n : ℕ) (j : ℚ)
    (hj : 0 ≤ j ∧ j ≤ 2) (hn : n < FetchSP500.MAX_RETRIES) :
    FetchSP500.retry_policy true n j
      = FetchSP500.RetryDecision.retryAfter
          (min (FetchSP500.BASE_DELAY * 2 ^ n + j) FetchSP500.MAX_BACKOFF)
    ∧ FetchSP500.backoff_delay n 0 ≤ FetchSP500.backoff_delay (n + 1) 0 := by
  constructor
  · simp [FetchSP500.retry_policy, hn, FetchSP500.backoff_delay]
  · unfold FetchSP500.backoff_delay
    have h2 : FetchSP500.BASE_DELAY * 2 ^ n ≤ FetchSP500.BASE_DELAY * 2 ^ (n + 1) := by
      have hpow : (2 : ℚ) ^ n ≤ 2 ^ (n + 1) :=
        pow_le_pow_right₀ (by norm_num) (Nat.le_succ n)
      have hb : (0 : ℚ) ≤ FetchSP500.BASE_DELAY := by norm_num [FetchSP500.BASE_DELAY]
      exact mul_le_mul_of_nonneg_left hpow hb
    exact min_le_min (by linarith) le_rfl

/-- Witness for C4 at attempt 0 with zero jitter. -/
theorem backoff_formula_and_monotone_witness :
    FetchSP500.retry_policy true 0 0
      = FetchSP500.RetryDecision.retryAfter
          (min (FetchSP500.BASE_DELAY * 2 ^ 0 + 0) FetchSP500.MAX_BACKOFF)
    ∧ FetchSP500.backoff_delay 0 0 ≤ FetchSP500.backoff_delay 1 0 :=
  backoff_formula_and_monotone 0 0 ⟨le_rfl, by norm_num⟩ (by decide)

/-- C5: at or beyond `MAX_RETRIES` the policy gives up for every error
classification, and the retry recursion of `fetch_stock_data` performs at
most `MAX_RETRIES + 1` upstream attempts whatever the error pattern is. -/
theorem retry_gives_up_at_max (c : Bool) (n : ℕ) (j : ℚ)
    (h : FetchSP500.MAX_RETRIES ≤ n) :
    FetchSP500.retry_policy c n j = FetchSP500.RetryDecision.giveUp
    ∧ ∀ f : ℕ → Bool, FetchSP500.fetch_attempts f 0 ≤ FetchSP500.MAX_RETRIES + 1 := by
  constructor
  · unfold FetchSP500.retry_policy
    rw [if_neg]
    rintro ⟨-, hlt⟩
    omega
  · intro f
    have key : ∀ k (g : ℕ → Bool) m, FetchSP500.MAX_RETRIES - m ≤ k →
        FetchSP500.fetch_attempts g m ≤ k + 1 := by
      intro k
      induction k with
      | zero =>
        intro g m hk
        unfold FetchSP500.fetch_attempts
        split
        · rename_i hcond
          omega
        · omega
      | succ k ih =>
        intro g m hk
        unfold FetchSP500.fetch_attempts
        split
        · rename_i hcond
          have := ih g (m + 1) (by omega)
          omega
        · omega
    exact key FetchSP500.MAX_RETRIES f 0 (by omega)

/-- Witness for C5 at the exact attempt cap. -/
theorem retry_gives_up_at_max_witness :
    FetchSP500.retry_policy true FetchSP500.MAX_RETRIES 0
      = FetchSP500.RetryDecision.giveUp
    ∧ ∀ f : ℕ → Bool, FetchSP500.fetch_attempts f 0 ≤ FetchSP500.MAX_RETRIES + 1 :=
  retry_gives_up_at_max true FetchSP500.MAX_RETRIES 0 le_rfl

/-- Helper: a produced record is exactly the one built by `build_record`. -/
theorem fetch_stock_data_some_inv (t reg : String) (i : RawInfo) (y : Option ℚ)
    (r : FetchSP500.EntityRecord)
    (h : FetchSP500.fetch_stock_data t reg (some i) y = some r) :
    r = FetchSP500.build_record t reg i y := by
  unfold FetchSP500.fetch_stock_data at h
  by_cases h1 : i.regularMarketPrice.isNone
  · simp [h1] at h
  · by_cases h2 : FetchSP500.resolved_price i = 0 ∨ i.marketCap.getD 0 = 0
    · simp [h1, h2] at h
    · simp [h1, h2] at h
      exact h.symm

/-- Helper: a produced `update_stock_data` record is the built one. -/
theorem get_stock_data_some_inv (t reg : String) (i : RawInfo) (y : Option ℚ)
    (s : UpdateStock.StockRecord)
    (h : UpdateStock.get_stock_data t reg (some i) y = some s) :
    s = UpdateStock.build_record t reg i y := by
  unfold UpdateStock.get_stock_data at h
  by_cases h1 : i.symbol.isNone
  · simp [h1] at h
  · simp [h1] at h
    exact h.symm

/-- A payload with a negative resolved price and positive market cap. -/
def negPriceInfo : RawInfo :=
  { regularMarketPrice := some (-5), marketCap := some 1000 }

/-- A payload whose resolved price is zero, with other fields populated. -/
def zeroPriceInfo : RawInfo :=
  { regularMarketPrice := some 0, marketCap := some 1000
    trailingPE := some 12, priceToBook := some 3, returnOnEquity := some (1/4)
    sector := some ("Energy"), shortName := some ("Zero Corp") }

/-- C6 counterexample: a payload whose price is strictly negative (hence
non-positive) with a positive market cap is NOT rejected — the normalizer
produces a record, refuting "absent, zero, or otherwise non-positive". -/
theorem normalizer_accepts_negative_price :
    (FetchSP500.fetch_stock_data ("T") ("US") (some negPriceInfo) none).isSome = true
    ∧ FetchSP500.resolved_price negPriceInfo = -5 := by
  refine ⟨by decide, by decide⟩

/-- C6 (amended): the normalizer rejects (returns no record) exactly the
falsy core cases — an empty/missing payload, a missing `regularMarketPrice`
key, a resolved price equal to zero, or a missing/zero market cap; in
particular a zero price is rejected regardless of the other fields.
Strictly negative prices or market caps are not rejected. -/
theorem normalizer_missing_core (t reg : String) (i : RawInfo) (y : Option ℚ)
    (h : i.regularMarketPrice = none
      ∨ FetchSP500.resolved_price i = 0
      ∨ i.marketCap.getD 0 = 0) :
    FetchSP500.fetch_stock_data t reg (some i) y = none
    ∧ FetchSP500.fetch_stock_data t reg none y = none := by
  refine ⟨?_, rfl⟩
  unfold FetchSP500.fetch_stock_data
  by_cases h1 : i.regularMarketPrice.isNone
  · simp [h1]
  · have h2 : FetchSP500.resolved_price i = 0 ∨ i.marketCap.getD 0 = 0 := by
      rcases h with h | h | h
      · exact absurd (Option.isNone_iff_eq_none.mpr h) h1
      · exact Or.inl h
      · exact Or.inr h
    simp [h1, h2]

/-- Witness for C6's amended theorem: zero price rejected despite populated
secondary fields. -/
theorem normalizer_missing_core_witness :
    FetchSP500.fetch_stock_data ("T") ("US") (some zeroPriceInfo) none = none
    ∧ FetchSP500.fetch_stock_data ("T") ("US") none none = none :=
  normalizer_missing_core ("T") ("US") zeroPriceInfo none
    (Or.inr (Or.inl (by decide)))

/-- Helper: the sector table maps recognized upstream names into its
codomain. -/
theorem sectorMapGet_mem (raw : String)
    (h : raw ∈ FetchSP500.SECTOR_MAP.map Prod.fst) :
    FetchSP500.sectorMapGet raw ∈ FetchSP500.SECTOR_MAP.map Prod.snd := by
  fin_cases h <;> decide

/-- A payload whose upstream sector is not in the static mapping table. -/
def telInfo : RawInfo :=
  { regularMarketPrice := some 5, marketCap := some 10
    sector := some ("Telecommunication Services") }

/-- A payload whose upstream sector is a recognized table key. -/
def energyInfo : RawInfo :=
  { regularMarketPrice := some 5, marketCap := some 10
    sector := some ("Energy"), symbol := some ("T") }

/-- C7 counterexample: an unrecognized upstream sector value is passed
through unchanged — the emitted sector is neither "Unknown" nor a member of
the fixed enumerated set. -/
theorem sector_passthrough_counterexample :
    ((FetchSP500.fetch_stock_data ("T") ("US") (some telInfo) none).map
        (fun r => r.industrySector)) = some ("Telecommunication Services")
    ∧ ("Telecommunication Services") ∉ SPEC_CANONICAL_SECTORS := by
  refine ⟨by decide, by decide⟩

/-- C7 (amended): the emitted sector is the static table's image of the
upstream sector; a missing upstream sector defaults to "Unknown", a
recognized one maps into the table's fixed codomain, and an unrecognized one
passes through unchanged rather than being coerced to "Unknown". -/
theorem sector_mapping_spec (t reg : String) (i : RawInfo) (y : Option ℚ)
    (r : FetchSP500.EntityRecord)
    (h : FetchSP500.fetch_stock_data t reg (some i) y = some r) :
    r.industrySector = FetchSP500.sectorMapGet (i.sector.getD ("Unknown"))
    ∧ (i.sector = none → r.industrySector = "Unknown")
    ∧ ((i.sector.getD ("Unknown")) ∈ FetchSP500.SECTOR_MAP.map Prod.fst →
        r.industrySector ∈ FetchSP500.SECTOR_MAP.map Prod.snd) := by
  have hr := fetch_stock_data_some_inv t reg i y r h
  subst hr
  refine ⟨rfl, ?_, ?_⟩
  · intro hs
    simp [FetchSP500.build_record, hs]
    decide
  · intro hmem
    exact sectorMapGet_mem _ hmem

/-- Witness for C7's amended theorem at a recognized sector. -/
theorem sector_mapping_spec_witness :
    ∃ r, FetchSP500.fetch_stock_data ("T") ("US") (some energyInfo) none = some r
      ∧ r.industrySector = FetchSP500.sectorMapGet ("Energy") :=
  ⟨_, rfl, (sector_mapping_spec ("T") ("US") energyInfo none _ rfl).1⟩

/-- C8: the scheduler's streak counter increments on every failed item and
resets on every success; after a batch whose streak exceeds 5 exactly one
extended jittered pause (`delay * 2 + jitter`) is inserted and the counter is
reset to zero, while below the threshold no pause is inserted and the counter
is kept; and after any item-level success the streak is zero. -/
theorem consecutive_failures_invariant (delay jit : ℚ) (c : ℕ)
    (outcomes : List Bool)
    (h5 : 5 < FetchSP500.batch_items c outcomes) :
    (∀ n, FetchSP500.item_step n false = n + 1 ∧ FetchSP500.item_step n true = 0)
    ∧ FetchSP500.batch_step delay jit c outcomes = (0, some (delay * 2 + jit))
    ∧ (∀ c2 outs2, ¬ 5 < FetchSP500.batch_items c2 outs2 →
        FetchSP500.batch_step delay jit c2 outs2
          = (FetchSP500.batch_items c2 outs2, none))
    ∧ (∀ c3 (pre : List Bool), FetchSP500.batch_items c3 (pre ++ [true]) = 0) := by
  refine ⟨fun n => ⟨rfl, rfl⟩, ?_, ?_, ?_⟩
  · simp [FetchSP500.batch_step, FetchSP500.distress_check, h5]
  · intro c2 outs2 hlt
    simp [FetchSP500.batch_step, FetchSP500.distress_check, hlt]
  · intro c3 pre
    simp [FetchSP500.batch_items, List.foldl_append, FetchSP500.item_step]

/-- Witness for C8: six straight failures trigger one extended pause and a
reset; a success zeroes the streak. -/
theorem consecutive_failures_invariant_witness :
    FetchSP500.batch_step 20 1 0 [false, false, false, false, false, false]
      = (0, some (20 * 2 + 1))
    ∧ FetchSP500.batch_items 7 ([false] ++ [true]) = 0 :=
  ⟨(consecutive_failures_invariant 20 1 0
      [false, false, false, false, false, false] (by decide)).2.1,
   (consecutive_failures_invariant 20 1 0
      [false, false, false, false, false, false] (by decide)).2.2.2 7 [false]⟩

/-- C9 counterexample: a persisted dataset containing a UK-region record is
not returned by the load step — it is filtered away and the dataset comes
back empty. -/
theorem load_checkpoint_drops_regions :
    FetchSP500.load_checkpoint (some [ukRec]) = []
    ∧ [ukRec] ≠ ([] : List FetchSP500.EntityRecord) := by
  refine ⟨by decide, by decide⟩

/-- C9 (amended): the load never fails on a missing checkpoint file — that
case yields the empty dataset and the run proceeds — and when a persisted
dataset exists the load returns exactly its US/Indonesia records: each such
record is retained, every returned record comes from the file, and records
of any other region are dropped (to be re-fetched). -/
theorem load_checkpoint_spec (l : List FetchSP500.EntityRecord)
    (r : FetchSP500.EntityRecord) (hr : r ∈ l) :
    FetchSP500.load_checkpoint none = []
    ∧ (∀ x ∈ FetchSP500.load_checkpoint (some l), x ∈ l)
    ∧ ((r.region = "US" ∨ r.region = "Indonesia") →
        r ∈ FetchSP500.load_checkpoint (some l))
    ∧ ((r.region ≠ "US" ∧ r.region ≠ "Indonesia") →
        r ∉ FetchSP500.load_checkpoint (some l)) := by
  refine ⟨rfl, ?_, ?_, ?_⟩
  · intro x hx
    simp only [FetchSP500.load_checkpoint] at hx
    exact (List.mem_filter.mp hx).1
  · intro hreg
    simp only [FetchSP500.load_checkpoint]
    refine List.mem_filter.mpr ⟨hr, ?_⟩
    rcases hreg with h | h <;> simp [h]
  · rintro ⟨h1, h2⟩ hx
    simp only [FetchSP500.load_checkpoint] at hx
    have := (List.mem_filter.mp hx).2
    simp [h1, h2] at this

/-- Witness for C9's amended theorem: a US record is retained. -/
theorem load_checkpoint_spec_witness :
    usRec ∈ FetchSP500.load_checkpoint (some [usRec, ukRec]) :=
  (load_checkpoint_spec [usRec, ukRec] usRec (by simp)).2.2.1 (Or.inl rfl)

/-- A payload whose optional metrics are all present with value zero (and a
valid price, market cap and symbol so that both normalizers emit a record). -/
def zeroMetricsInfo : RawInfo :=
  { regularMarketPrice := some 5, marketCap := some 10
    trailingPE := some 0, forwardPE := some 0, priceToBook := some 0
    priceToSalesTrailing12Months := some 0, returnOnEquity := some 0
    returnOnAssets := some 0, revenueGrowth := some 0, earningsGrowth := some 0
    debtToEquity := some 0, currentRatioVal := some 0, quickRatioVal := some 0
    grossMargins := some 0, ebitda := some 0, ebitdaMargins := some 0
    beta := some 0, dividendYield := some 0, symbol := some ("T") }

/-- C10: in both normalizers, each optional metric whose upstream value is
exactly 0 is emitted as absent rather than as the number 0: the Python
truthiness guards `if x` and `round(x, 2) if x else None` conflate a zero
value with a missing one. -/
theorem zero_valued_metrics_absent
    (t1 reg1 t2 reg2 : String) (i1 i2 : RawInfo) (y1 y2 : Option ℚ)
    (r : FetchSP500.EntityRecord) (s : UpdateStock.StockRecord)
    (h1 : FetchSP500.fetch_stock_data t1 reg1 (some i1) y1 = some r)
    (h2 : UpdateStock.get_stock_data t2 reg2 (some i2) y2 = some s) :
    (i1.trailingPE = some 0 → r.pe = none)
    ∧ (i1.priceToBook = some 0 → r.pb = none)
    ∧ (i1.priceToSalesTrailing12Months = some 0 → r.ps = none)
    ∧ (i1.returnOnEquity = some 0 → r.roe = none)
    ∧ (i1.returnOnAssets = some 0 → r.roa = none)
    ∧ (i1.debtToEquity = some 0 → r.de = none)
    ∧ (i1.beta = some 0 → r.beta = none)
    ∧ (y1 = some 0 → r.ytdReturn = none)
    ∧ (i1.revenueGrowth = some 0 → r.revenueGrowth = none)
    ∧ (i1.earningsGrowth = some 0 → r.epsGrowth = none ∧ r.netIncomeGrowth = none)
    ∧ (i1.grossMargins = some 0 → r.grossMargin = none)
    ∧ (i1.ebitda = some 0 → r.ebitdaMargin = none)
    ∧ (i1.currentRatioVal = some 0 → r.curRatioVal = none)
    ∧ (i1.quickRatioVal = some 0 → r.quickRatioVal = none)
    ∧ (i1.dividendYield = some 0 → r.dividendYield = none)
    ∧ (UpdateStock.price_value i2 = some 0 → s.price = none)
    ∧ (pyOrQ i2.trailingPE i2.forwardPE = some 0 → s.pe = none)
    ∧ (i2.priceToBook = some 0 → s.pb = none)
    ∧ (i2.priceToSalesTrailing12Months = some 0 → s.ps = none)
    ∧ (i2.returnOnEquity = some 0 → s.roe = none)
    ∧ (i2.debtToEquity = some 0 → s.de = none)
    ∧ (i2.beta = some 0 → s.beta = none)
    ∧ (y2 = some 0 → s.ytdReturn = none)
    ∧ (i2.revenueGrowth = some 0 → s.revenueGrowth = none)
    ∧ (i2.earningsGrowth = some 0 → s.epsGrowth = none ∧ s.netIncomeGrowth = none)
    ∧ (i2.ebitdaMargins = some 0 → s.ebitdaMargin = none)
    ∧ (i2.grossMargins = some 0 → s.grossMargin = none)
    ∧ (i2.currentRatioVal = some 0 → s.curRatioVal = none)
    ∧ (i2.quickRatioVal = some 0 → s.quickRatioVal = none) := by
  have hr := fetch_stock_data_some_inv t1 reg1 i1 y1 r h1
  have hs := get_stock_data_some_inv t2 reg2 i2 y2 s h2
  subst hr
  subst hs
  refine ⟨?_, ?_, ?_, ?_, ?_, ?_, ?_, ?_, ?_, ?_, ?_, ?_, ?_, ?_, ?_,
    ?_, ?_, ?_, ?_, ?_, ?_, ?_, ?_, ?_, ?_, ?_, ?_, ?_, ?_⟩ <;>
    intro hz <;>
    simp [FetchSP500.build_record, UpdateStock.build_record, hz,
      FetchSP500.pe_value, FetchSP500.pb_value, FetchSP500.ebitda_margin_value,
      round2If, round3If, round4If, scale100]

/-- Witness for C10: both normalizers emit records dropping the zero-valued
metrics. -/
theorem zero_valued_metrics_absent_witness :
    ∃ r s,
      FetchSP500.fetch_stock_data ("T") ("US") (some zeroMetricsInfo) (some 0) = some r
      ∧ UpdateStock.get_stock_data ("T") ("US") (some zeroMetricsInfo) (some 0) = some s
      ∧ r.pe = none ∧ r.dividendYield = none ∧ r.ytdReturn = none
      ∧ s.pe = none ∧ s.grossMargin = none :=
  ⟨_, _, rfl, rfl,
   (zero_valued_metrics_absent ("T") ("US") ("T") ("US") zeroMetricsInfo
      zeroMetricsInfo (some 0) (some 0) _ _ rfl rfl).1 rfl,
   (zero_valued_metrics_absent ("T") ("US") ("T") ("US") zeroMetricsInfo
      zeroMetricsInfo (some 0) (some 0) _ _ rfl rfl).2.2.2.2.2.2.2.2.2.2.2.2.2.2.1 rfl,
   (zero_valued_metrics_absent ("T") ("US") ("T") ("US") zeroMetricsInfo
      zeroMetricsInfo (some 0) (some 0) _ _ rfl rfl).2.2.2.2.2.2.2.1 rfl,
   (zero_valued_metrics_absent ("T") ("US") ("T") ("US") zeroMetricsInfo
      zeroMetricsInfo (some 0) (some 0) _ _ rfl rfl).2.2.2.2.2.2.2.2.2.2.2.2.2.2.2.2.1 (by decide),
   (zero_valued_metrics_absent ("T") ("US") ("T") ("US") zeroMetricsInfo
      zeroMetricsInfo (some 0) (some 0) _ _ rfl rfl).2.2.2.2.2.2.2.2.2.2.2.2.2.2.2.2.2.2.2.2.2.2.2.2.2.2.1 rfl⟩
